import Mathlib

/-!
Verification of the viewport navigation and scroll/page-flip controller of
mcomix (`src/mcomix/event.py`).

The embedding keeps the source's structure: the process-wide preference
dictionary becomes the `Prefs` structure, the queries the handler makes on the
main window / viewport become the `WindowEnv` structure (they are read-only
within a single handler invocation), and the handler's own mutable fields
(`_extra_scroll_events`, `_scroll_protection`, `_last_scroll_was_direction_1`)
become the `EvState` structure.

Viewport calls that return a boolean (`scroll`, `scroll_to_fixed`) are
modelled by consuming one answer from an oracle list of booleans, in call
order (the head of the list answers the next call, and the list is exhausted
to `false`); every viewport call a handler makes is also recorded in an output trace
(`VCall`), so theorems can speak about which calls were issued and in which
order.  The `assert False` branch of the page-flip protectors is modelled by
returning `none`; every other path returns `some`.
-/

/-- Which sub-page of a double-page spread a scroll is scoped to
(the optional third argument of `window.scroll`). -/
inductive Subpage
  | first
  | second
  deriving DecidableEq, Repr

/-- Horizontal anchors accepted by `window.scroll_to_fixed`. -/
inductive HorizTarget
  | left
  | middle
  | right
  | startfirst
  | endfirst
  | startsecond
  | endsecond
  deriving DecidableEq, Repr

/-- Vertical anchors accepted by `window.scroll_to_fixed`. -/
inductive VertTarget
  | top
  | middle
  | bottom
  deriving DecidableEq, Repr

/-- A call made on the window/viewport by the event handler, as recorded in
the output trace of the embedded handlers. -/
inductive VCall
  | scroll (dx dy : ℤ) (sub : Option Subpage)
  | scrollToFixed (horiz : Option HorizTarget) (vert : Option VertTarget)
  | nextPage
  | previousPage
  deriving DecidableEq, Repr

/-- The four wheel directions of `scroll_wheel_event`. -/
inductive ScrollDir
  | up
  | down
  | right
  | left
  deriving DecidableEq, Repr

/-- The preference entries read by the handlers of `event.py`. -/
structure Prefs where
  /-- `prefs['flip with wheel']` -/
  flipWithWheel : Bool
  /-- `prefs['number of key presses before page turn']` -/
  pageTurnThreshold : ℤ
  /-- `prefs['smart scroll']` -/
  smartScroll : Bool
  /-- `prefs['invert smart scroll']` -/
  invertSmartScroll : Bool
  /-- `prefs['smart scroll percentage']` -/
  smartScrollPercentage : ℚ
  /-- `prefs['number of pixels to scroll per mouse wheel event']` -/
  pixelsPerWheelEvent : ℤ
  deriving DecidableEq

/-- The window/viewport queries a handler can make; fixed for the duration of
one handler invocation. -/
structure WindowEnv where
  /-- `window.is_manga_mode` -/
  isMangaMode : Bool
  /-- `window.displayed_double()` -/
  displayedDouble : Bool
  /-- `window.is_on_first_page()` -/
  isOnFirstPage : Bool
  /-- `window.is_scrollable_vertically()` -/
  isScrollableVertically : Bool
  /-- width of `window.get_visible_area_size()` -/
  visibleWidth : ℤ
  /-- height of `window.get_visible_area_size()` -/
  visibleHeight : ℤ
  deriving DecidableEq

/-- The mutable fields of `EventHandler` relevant to scrolling and flipping. -/
structure EvState where
  /-- `self._extra_scroll_events` -/
  extraScrollEvents : ℤ
  /-- `self._scroll_protection` -/
  scrollProtection : Bool
  /-- `self._last_scroll_was_direction_1` -/
  lastScrollWasDirection1 : Bool
  deriving DecidableEq, Repr

/-- Python `int()` applied to a rational: truncation toward zero. -/
def pyInt (q : ℚ) : ℤ := if 0 ≤ q then ⌊q⌋ else ⌈q⌉

/-- Python `a and b or c` where `a` is a boolean and `b`, `c` are integers:
if `a` is truthy the expression is `b` unless `b` itself is falsy (zero), in
which case it is `c`; if `a` is falsy it is `c`. -/
def pyAndOr (a : Bool) (b c : ℤ) : ℤ :=
  if a then (if b = 0 then c else b) else c

/-- `_valwarp(cur, maxval, minval, tolerance, extra)` from `event.py`:
warp a drag-cursor coordinate to the opposite screen edge when it comes
within `tolerance` of a border, overshooting by `extra` to avoid flapping. -/
def valwarp (cur maxval minval tolerance extra : ℚ) : ℚ :=
  if cur < minval + tolerance then
    maxval - tolerance - (minval + tolerance - cur) - extra
  else if maxval - cur < tolerance then
    minval + tolerance + (tolerance - (maxval - cur)) + extra
  else cur

/-- The branch condition under which `_valwarp` warps (either border test
fires) rather than returning its input unchanged. -/
def valwarpTriggers (cur maxval minval tolerance : ℚ) : Prop :=
  cur < minval + tolerance ∨ maxval - cur < tolerance

instance (cur maxval minval tolerance : ℚ) :
    Decidable (valwarpTriggers cur maxval minval tolerance) := by
  unfold valwarpTriggers
  infer_instance

/-- `EventHandler._next_page_with_protection`: advance to the next page,
debounced by `_scroll_protection` / `_extra_scroll_events`.  The returned
boolean is the Python return value (`True` when the page was flipped); the
final `assert False` branch is modelled as `none`. -/
def nextPageWithProtection (p : Prefs) (w : WindowEnv) (s : EvState) :
    Option (Bool × EvState × List VCall) :=
  if p.flipWithWheel = false then
    some (false, { s with extraScrollEvents := 0 }, [])
  else if s.scrollProtection = false
      ∨ p.pageTurnThreshold - 1 ≤ s.extraScrollEvents
      ∨ w.isScrollableVertically = false then
    some (true, { s with extraScrollEvents := 0 }, [VCall.nextPage])
  else if s.scrollProtection = true then
    some (false, { s with extraScrollEvents := max 1 (s.extraScrollEvents + 1) }, [])
  else
    none

/-- `EventHandler._previous_page_with_protection`: go back to the previous
page, debounced symmetrically to `nextPageWithProtection`. -/
def previousPageWithProtection (p : Prefs) (w : WindowEnv) (s : EvState) :
    Option (Bool × EvState × List VCall) :=
  if p.flipWithWheel = false then
    some (false, { s with extraScrollEvents := 0 }, [])
  else if s.scrollProtection = false
      ∨ s.extraScrollEvents ≤ -p.pageTurnThreshold + 1
      ∨ w.isScrollableVertically = false then
    some (true, { s with extraScrollEvents := 0 }, [VCall.previousPage])
  else if s.scrollProtection = true then
    some (false, { s with extraScrollEvents := min (-1) (s.extraScrollEvents - 1) }, [])
  else
    none

/-- The four step values computed at the top of `_smart_scroll_down` and
`_smart_scroll_up` (the two functions share this code verbatim). -/
structure Steps where
  xStepSmall : ℤ
  xStepLarge : ℤ
  yStepSmall : ℤ
  yStepLarge : ℤ
  deriving DecidableEq, Repr

/-- Step computation of `_smart_scroll_down` / `_smart_scroll_up` before the
manga-mode negation (lines 396-407 resp. 480-491 of `event.py`).  Note the
source's second tuple assignment under `invert smart scroll` reads
`x_step_large, y_step_large = y_step_large, x_step_small`, so `y_step_large`
receives the current `x_step_small`, not `x_step_large`; the embedding
mirrors this. -/
def computeStepsBase (p : Prefs) (w : WindowEnv) (smallStep : Option ℤ) : Steps :=
  let distance := p.smartScrollPercentage
  match smallStep with
  | none =>
    let xs := pyInt ((w.visibleWidth : ℚ) * distance)
    let ys := pyInt ((w.visibleHeight : ℚ) * distance)
    ⟨xs, xs, ys, ys⟩
  | some st =>
    let xStepSmall := st
    let yStepSmall := st
    let xStepLarge := pyInt ((w.visibleWidth : ℚ) * distance)
    let yStepLarge := pyInt ((w.visibleHeight : ℚ) * distance)
    if p.invertSmartScroll then
      let xStepSmall2 := yStepSmall
      let yStepSmall2 := xStepSmall
      let xStepLarge2 := yStepLarge
      let yStepLarge2 := xStepSmall2
      ⟨xStepSmall2, xStepLarge2, yStepSmall2, yStepLarge2⟩
    else
      ⟨xStepSmall, xStepLarge, yStepSmall, yStepLarge⟩

/-- Step computation including the manga-mode horizontal negation
(lines 409-411 resp. 493-495 of `event.py`). -/
def computeSmartSteps (p : Prefs) (w : WindowEnv) (smallStep : Option ℤ) : Steps :=
  let st := computeStepsBase p w smallStep
  if w.isMangaMode then
    { st with xStepSmall := -st.xStepSmall, xStepLarge := -st.xStepLarge }
  else st

/-- Append the trace of a protector result to an already-issued trace
(helper for the smart-scroll embeddings, which discard the protector's
boolean return value). -/
def protTail (tr : List VCall) :
    Option (Bool × EvState × List VCall) → Option (EvState × List VCall)
  | none => none
  | some (_, s, tr2) => some (s, tr ++ tr2)

/-- Body of `_smart_scroll_down` after the step computation (lines 413-472 of
`event.py`), with the step values passed in explicitly. -/
def smartDownCore (p : Prefs) (w : WindowEnv) (st : Steps) (s : EvState)
    (o : List Bool) : Option (EvState × List VCall) :=
  if p.smartScroll = false then
    let r := o.headD false
    if r = false then
      protTail [VCall.scroll 0 st.yStepSmall none] (nextPageWithProtection p w s)
    else
      some (s, [VCall.scroll 0 st.yStepSmall none])
  else if w.displayedDouble then
    if w.isOnFirstPage then
      let lastScroll := s.lastScrollWasDirection1
      let r1 := o.headD false
      let o := o.tail
      let s := { s with lastScrollWasDirection1 := r1 }
      let tr := [VCall.scroll st.xStepSmall 0 (some Subpage.first)]
      if r1 = false then
        let scrollSize := pyAndOr lastScroll st.yStepLarge st.yStepSmall
        let r2 := o.headD false
        let o := o.tail
        let tr := tr ++ [VCall.scroll 0 scrollSize none]
        if r2 = false then
          let r3 := o.headD false
          let tr := tr ++ [VCall.scrollToFixed (some HorizTarget.startsecond) none]
          if r3 = false then
            protTail tr (nextPageWithProtection p w s)
          else
            some (s, tr ++ [VCall.scrollToFixed none (some VertTarget.top)])
        else
          some (s, tr ++ [VCall.scrollToFixed (some HorizTarget.startfirst) none])
      else
        some (s, tr)
    else
      let lastScroll := s.lastScrollWasDirection1
      let r1 := o.headD false
      let o := o.tail
      let s := { s with lastScrollWasDirection1 := r1 }
      let tr := [VCall.scroll st.xStepSmall 0 (some Subpage.second)]
      if r1 = false then
        let scrollSize := pyAndOr lastScroll st.yStepLarge st.yStepSmall
        let r2 := o.headD false
        let tr := tr ++ [VCall.scroll 0 scrollSize none]
        if r2 = false then
          protTail tr (nextPageWithProtection p w s)
        else
          some (s, tr ++ [VCall.scrollToFixed (some HorizTarget.startsecond) none])
      else
        some (s, tr)
  else
    if p.invertSmartScroll = false then
      let lastScroll := s.lastScrollWasDirection1
      let r1 := o.headD false
      let o := o.tail
      let s := { s with lastScrollWasDirection1 := r1 }
      let tr := [VCall.scroll st.xStepSmall 0 none]
      if r1 = false then
        let scrollSize := pyAndOr lastScroll st.yStepLarge st.yStepSmall
        let r2 := o.headD false
        let tr := tr ++ [VCall.scroll 0 scrollSize none]
        if r2 = false then
          protTail tr (nextPageWithProtection p w s)
        else
          some (s, tr ++ [VCall.scrollToFixed (some HorizTarget.startfirst) none])
      else
        some (s, tr)
    else
      let lastScroll := s.lastScrollWasDirection1
      let r1 := o.headD false
      let o := o.tail
      let s := { s with lastScrollWasDirection1 := r1 }
      let tr := [VCall.scroll 0 st.yStepSmall none]
      if r1 = false then
        let scrollSize := pyAndOr lastScroll st.xStepLarge st.xStepSmall
        let r2 := o.headD false
        let tr := tr ++ [VCall.scroll scrollSize 0 none]
        if r2 = false then
          protTail tr (nextPageWithProtection p w s)
        else
          some (s, tr ++ [VCall.scrollToFixed (some HorizTarget.startsecond)
            (some VertTarget.top)])
      else
        some (s, tr)

/-- `EventHandler._smart_scroll_down` (lines 390-472 of `event.py`). -/
def smartScrollDown (p : Prefs) (w : WindowEnv) (s : EvState)
    (smallStep : Option ℤ) (o : List Bool) : Option (EvState × List VCall) :=
  smartDownCore p w (computeSmartSteps p w smallStep) s o

/-- Body of `_smart_scroll_up` after the step computation (lines 497-556 of
`event.py`), with the step values passed in explicitly. -/
def smartUpCore (p : Prefs) (w : WindowEnv) (st : Steps) (s : EvState)
    (o : List Bool) : Option (EvState × List VCall) :=
  if p.smartScroll = false then
    let r := o.headD false
    if r = false then
      protTail [VCall.scroll 0 (-st.yStepSmall) none] (previousPageWithProtection p w s)
    else
      some (s, [VCall.scroll 0 (-st.yStepSmall) none])
  else if w.displayedDouble then
    if w.isOnFirstPage then
      let lastScroll := s.lastScrollWasDirection1
      let r1 := o.headD false
      let o := o.tail
      let s := { s with lastScrollWasDirection1 := r1 }
      let tr := [VCall.scroll (-st.xStepSmall) 0 (some Subpage.first)]
      if r1 = false then
        let scrollSize := pyAndOr lastScroll st.yStepLarge st.yStepSmall
        let r2 := o.headD false
        let tr := tr ++ [VCall.scroll 0 (-scrollSize) none]
        if r2 = false then
          protTail tr (previousPageWithProtection p w s)
        else
          some (s, tr ++ [VCall.scrollToFixed (some HorizTarget.endfirst) none])
      else
        some (s, tr)
    else
      let lastScroll := s.lastScrollWasDirection1
      let r1 := o.headD false
      let o := o.tail
      let s := { s with lastScrollWasDirection1 := r1 }
      let tr := [VCall.scroll (-st.xStepSmall) 0 (some Subpage.second)]
      if r1 = false then
        let scrollSize := pyAndOr lastScroll st.yStepLarge st.yStepSmall
        let r2 := o.headD false
        let o := o.tail
        let tr := tr ++ [VCall.scroll 0 (-scrollSize) none]
        if r2 = false then
          let r3 := o.headD false
          let tr := tr ++ [VCall.scrollToFixed (some HorizTarget.endfirst) none]
          if r3 = false then
            protTail tr (previousPageWithProtection p w s)
          else
            some (s, tr ++ [VCall.scrollToFixed none (some VertTarget.bottom)])
        else
          some (s, tr ++ [VCall.scrollToFixed (some HorizTarget.endsecond) none])
      else
        some (s, tr)
  else
    if p.invertSmartScroll = false then
      let lastScroll := s.lastScrollWasDirection1
      let r1 := o.headD false
      let o := o.tail
      let s := { s with lastScrollWasDirection1 := r1 }
      let tr := [VCall.scroll (-st.xStepSmall) 0 none]
      if r1 = false then
        let scrollSize := pyAndOr lastScroll st.yStepLarge st.yStepSmall
        let r2 := o.headD false
        let tr := tr ++ [VCall.scroll 0 (-scrollSize) none]
        if r2 = false then
          protTail tr (previousPageWithProtection p w s)
        else
          some (s, tr ++ [VCall.scrollToFixed (some HorizTarget.endfirst) none])
      else
        some (s, tr)
    else
      let lastScroll := s.lastScrollWasDirection1
      let r1 := o.headD false
      let o := o.tail
      let s := { s with lastScrollWasDirection1 := r1 }
      let tr := [VCall.scroll 0 (-st.yStepSmall) none]
      if r1 = false then
        let scrollSize := pyAndOr lastScroll st.xStepLarge st.xStepSmall
        let r2 := o.headD false
        let tr := tr ++ [VCall.scroll (-scrollSize) 0 none]
        if r2 = false then
          protTail tr (previousPageWithProtection p w s)
        else
          some (s, tr ++ [VCall.scrollToFixed (some HorizTarget.startfirst)
            (some VertTarget.bottom)])
      else
        some (s, tr)

/-- `EventHandler._smart_scroll_up` (lines 474-556 of `event.py`). -/
def smartScrollUp (p : Prefs) (w : WindowEnv) (s : EvState)
    (smallStep : Option ℤ) (o : List Bool) : Option (EvState × List VCall) :=
  smartUpCore p w (computeSmartSteps p w smallStep) s o

/-- `EventHandler._scroll_with_flipping` (lines 348-372 of `event.py`).
Returns the Python return value (`True` when it scrolled without flipping)
together with the new handler state and the trace of viewport calls. -/
def scrollWithFlipping (p : Prefs) (w : WindowEnv) (x y : ℤ) (s : EvState)
    (o : List Bool) : Option (Bool × EvState × List VCall) :=
  let s := { s with scrollProtection := true, lastScrollWasDirection1 := false }
  let r := o.headD false
  let tr := [VCall.scroll x y none]
  if r then
    some (true, { s with extraScrollEvents := 0 }, tr)
  else
    let forwardsScroll : Bool :=
      decide (0 < y) || (w.isMangaMode && decide (x < 0))
        || (!w.isMangaMode && decide (0 < x))
    if forwardsScroll then
      match nextPageWithProtection p w s with
      | none => none
      | some (f, s2, tr2) => some (!f, s2, tr ++ tr2)
    else
      match previousPageWithProtection p w s with
      | none => none
      | some (f, s2, tr2) => some (!f, s2, tr ++ tr2)

/-- `EventHandler.scroll_wheel_event` (lines 208-240 of `event.py`).
`button2` is whether `GDK_BUTTON2_MASK` is in the event state. -/
def scrollWheelEvent (p : Prefs) (w : WindowEnv) (dir : ScrollDir)
    (button2 : Bool) (s : EvState) (o : List Bool) :
    Option (EvState × List VCall) :=
  if button2 then
    some (s, [])
  else
    let s := { s with scrollProtection := true }
    match dir with
    | ScrollDir.up =>
      if p.smartScroll then
        smartScrollUp p w s (some p.pixelsPerWheelEvent) o
      else
        (scrollWithFlipping p w 0 (-p.pixelsPerWheelEvent) s o).map
          (fun r => (r.2.1, r.2.2))
    | ScrollDir.down =>
      if p.smartScroll then
        smartScrollDown p w s (some p.pixelsPerWheelEvent) o
      else
        (scrollWithFlipping p w 0 p.pixelsPerWheelEvent s o).map
          (fun r => (r.2.1, r.2.2))
    | ScrollDir.right =>
      if w.isMangaMode = false then
        some (s, [VCall.nextPage])
      else
        (previousPageWithProtection p w s).map (fun r => (r.2.1, r.2.2))
    | ScrollDir.left =>
      if w.isMangaMode = false then
        (previousPageWithProtection p w s).map (fun r => (r.2.1, r.2.2))
      else
        some (s, [VCall.nextPage])

/-- Model of the dispatch step of `EventHandler.key_press_event`
(lines 161-169 of `event.py`): `_scroll_protection` is reset to `False`, then
the keybinding manager executes whatever handler is bound to the key. -/
def keyPressEvent (handler : EvState → Option (EvState × List VCall))
    (s : EvState) : Option (EvState × List VCall) :=
  handler { s with scrollProtection := false }

/-- Negate the horizontal component of a recorded `scroll` call; other
viewport calls are unchanged.  Used to state the manga-mode symmetry. -/
def negX : VCall → VCall
  | VCall.scroll dx dy sub => VCall.scroll (-dx) dy sub
  | c => c

/-- Negate the horizontal scroll components of a whole handler result. -/
def negXRes : Option (EvState × List VCall) → Option (EvState × List VCall) :=
  Option.map (fun r => (r.1, r.2.map negX))

/-- C8: when the 'flip with wheel' preference is false, both protector
operations return `False` (no flip), reset `_extra_scroll_events` to 0
regardless of its prior value, and issue no viewport call (in particular
neither `next_page` nor `previous_page`). -/
theorem flip_disabled_no_flip (p : Prefs) (w : WindowEnv) (s : EvState) :
    nextPageWithProtection { p with flipWithWheel := false } w s =
      some (false, { s with extraScrollEvents := 0 }, []) ∧
    previousPageWithProtection { p with flipWithWheel := false } w s =
      some (false, { s with extraScrollEvents := 0 }, []) := by
  constructor
  · simp [nextPageWithProtection]
  · simp [previousPageWithProtection]

/-- C9: with 'flip with wheel' enabled, the final `else` branch of both
protectors (the `assert False`, modelled as `none`) is unreachable: either
the flip-now condition or the still-accumulating condition holds. -/
theorem debounce_assert_unreachable (p : Prefs) (w : WindowEnv) (s : EvState) :
    (nextPageWithProtection { p with flipWithWheel := true } w s).isSome = true ∧
    (previousPageWithProtection { p with flipWithWheel := true } w s).isSome = true := by
  constructor
  · simp only [nextPageWithProtection]
    split
    · simp
    · split
      · simp
      · split
        · simp
        · rename_i hflip hprot
          exfalso
          cases hsp : s.scrollProtection
          · exact hflip (Or.inl hsp)
          · exact hprot hsp
  · simp only [previousPageWithProtection]
    split
    · simp
    · split
      · simp
      · split
        · simp
        · rename_i hflip hprot
          exfalso
          cases hsp : s.scrollProtection
          · exact hflip (Or.inl hsp)
          · exact hprot hsp

/-- C10 (amended): for every threshold, every protector call leaves the
counter magnitude at most `max 1 (threshold - 1)`; and when 'flip with
wheel' is enabled, a non-flipping protection-active call leaves the counter
at least `1` (forward) resp. at most `-1` (backward). -/
theorem protector_counter_bound (p : Prefs) (w : WindowEnv) (s : EvState)
    (hN : 1 ≤ p.pageTurnThreshold) :
    (∀ f s2 tr, nextPageWithProtection p w s = some (f, s2, tr) →
      |s2.extraScrollEvents| ≤ max 1 (p.pageTurnThreshold - 1) ∧
      (p.flipWithWheel = true → f = false → s.scrollProtection = true →
        1 ≤ s2.extraScrollEvents)) ∧
    (∀ f s2 tr, previousPageWithProtection p w s = some (f, s2, tr) →
      |s2.extraScrollEvents| ≤ max 1 (p.pageTurnThreshold - 1) ∧
      (p.flipWithWheel = true → f = false → s.scrollProtection = true →
        s2.extraScrollEvents ≤ -1)) := by
  constructor
  · intro f s2 tr h
    unfold nextPageWithProtection at h
    split at h
    · rename_i hdis
      simp only [Option.some.injEq, Prod.mk.injEq] at h
      obtain ⟨hf, hs, -⟩ := h
      subst hs
      constructor
      · show |(0 : ℤ)| ≤ max 1 (p.pageTurnThreshold - 1)
        rw [abs_le]
        omega
      · intro hfw _ _
        rw [hdis] at hfw
        exact Bool.noConfusion hfw
    · split at h
      · simp only [Option.some.injEq, Prod.mk.injEq] at h
        obtain ⟨hf, hs, -⟩ := h
        subst hs
        constructor
        · show |(0 : ℤ)| ≤ max 1 (p.pageTurnThreshold - 1)
          rw [abs_le]
          omega
        · intro _ hff _
          rw [← hf] at hff
          exact Bool.noConfusion hff
      · split at h
        · rename_i hnf hacc
          push_neg at hnf
          obtain ⟨-, hlt, -⟩ := hnf
          simp only [Option.some.injEq, Prod.mk.injEq] at h
          obtain ⟨hf, hs, -⟩ := h
          subst hs
          constructor
          · show |max 1 (s.extraScrollEvents + 1)| ≤ max 1 (p.pageTurnThreshold - 1)
            rw [abs_le]
            omega
          · intro _ _ _
            exact le_max_left 1 _
        · exact Option.noConfusion h
  · intro f s2 tr h
    unfold previousPageWithProtection at h
    split at h
    · rename_i hdis
      simp only [Option.some.injEq, Prod.mk.injEq] at h
      obtain ⟨hf, hs, -⟩ := h
      subst hs
      constructor
      · show |(0 : ℤ)| ≤ max 1 (p.pageTurnThreshold - 1)
        rw [abs_le]
        omega
      · intro hfw _ _
        rw [hdis] at hfw
        exact Bool.noConfusion hfw
    · split at h
      · simp only [Option.some.injEq, Prod.mk.injEq] at h
        obtain ⟨hf, hs, -⟩ := h
        subst hs
        constructor
        · show |(0 : ℤ)| ≤ max 1 (p.pageTurnThreshold - 1)
          rw [abs_le]
          omega
        · intro _ hff _
          rw [← hf] at hff
          exact Bool.noConfusion hff
      · split at h
        · rename_i hnf hacc
          push_neg at hnf
          obtain ⟨-, hlt, -⟩ := hnf
          simp only [Option.some.injEq, Prod.mk.injEq] at h
          obtain ⟨hf, hs, -⟩ := h
          subst hs
          constructor
          · show |min (-1) (s.extraScrollEvents - 1)| ≤ max 1 (p.pageTurnThreshold - 1)
            rw [abs_le]
            omega
          · intro _ _ _
            exact min_le_left (-1) _
        · exact Option.noConfusion h

/-- Witness for `protector_counter_bound` at a concrete state. -/
theorem protector_counter_bound_witness :
    (1 : ℤ) ≤ 3 ∧
    |(1 : ℤ)| ≤ max 1 ((3 : ℤ) - 1) ∧ (1 : ℤ) ≤ 1 := by
  have h := (protector_counter_bound
    ⟨true, 3, true, false, 1/2, 40⟩
    ⟨false, false, false, true, 800, 600⟩
    ⟨0, true, false⟩ (by norm_num)).1 false ⟨1, true, false⟩ [] (by decide)
  exact ⟨by norm_num, h.1, h.2 rfl rfl rfl⟩

/-- Counterexample to C1 as stated: with threshold `N = 2`, 'flip with
wheel' enabled, protection active, counter `0` and the viewport reporting
no vertical scroll room (`is_scrollable_vertically = False`), the very
first attempt already flips the page, instead of the claimed `N - 1 = 1`
absorbed attempts before a flip. -/
theorem debounce_threshold_as_stated_false :
    nextPageWithProtection
      ⟨true, 2, true, false, 1/2, 40⟩
      ⟨false, false, false, false, 800, 600⟩
      ⟨0, true, false⟩ =
    some (true, ⟨0, true, false⟩, [VCall.nextPage]) := by
  decide

/-- C1 (amended): with 'flip with wheel' enabled, protection active and the
viewport reporting vertical scroll room (`is_scrollable_vertically = True`),
a threshold of `N ≥ 1` requires exactly `N` consecutive same-direction
attempts: each of the first `N - 1` forward attempts returns `False` and
raises the counter by one (reaching `N - 1`), the `N`-th flips and resets
the counter to `0`; symmetrically for backward attempts; and an attempt
against the sign of the accumulated counter resets the magnitude to `1` in
the new direction. -/
theorem debounce_threshold (p : Prefs) (w : WindowEnv) (s : EvState)
    (hN : 1 ≤ p.pageTurnThreshold) (hf : p.flipWithWheel = true)
    (hp : s.scrollProtection = true) (hv : w.isScrollableVertically = true) :
    (∀ c : ℤ, 0 ≤ c → c < p.pageTurnThreshold - 1 →
      nextPageWithProtection p w { s with extraScrollEvents := c } =
        some (false, { s with extraScrollEvents := c + 1 }, [])) ∧
    (nextPageWithProtection p w
        { s with extraScrollEvents := p.pageTurnThreshold - 1 } =
      some (true, { s with extraScrollEvents := 0 }, [VCall.nextPage])) ∧
    (∀ c : ℤ, -(p.pageTurnThreshold - 1) < c → c ≤ 0 →
      previousPageWithProtection p w { s with extraScrollEvents := c } =
        some (false, { s with extraScrollEvents := c - 1 }, [])) ∧
    (previousPageWithProtection p w
        { s with extraScrollEvents := -(p.pageTurnThreshold - 1) } =
      some (true, { s with extraScrollEvents := 0 }, [VCall.previousPage])) ∧
    (∀ c : ℤ, 1 ≤ c →
      previousPageWithProtection p w { s with extraScrollEvents := c } =
        some (false, { s with extraScrollEvents := -1 }, [])) ∧
    (∀ c : ℤ, c ≤ -1 →
      nextPageWithProtection p w { s with extraScrollEvents := c } =
        some (false, { s with extraScrollEvents := 1 }, [])) := by
  refine ⟨?_, ?_, ?_, ?_, ?_, ?_⟩
  · intro c h0 h1
    simp only [nextPageWithProtection, hf, hp]
    rw [if_neg (by simp), if_neg (by simp [hv]; omega), if_pos trivial]
    simp only [Option.some.injEq, Prod.mk.injEq, EvState.mk.injEq, and_true,
      true_and]
    omega
  · simp only [nextPageWithProtection, hf, hp]
    rw [if_neg (by simp), if_pos (Or.inr (Or.inl (by simp)))]
  · intro c h0 h1
    simp only [previousPageWithProtection, hf, hp]
    rw [if_neg (by simp), if_neg (by simp [hv]; omega), if_pos trivial]
    simp only [Option.some.injEq, Prod.mk.injEq, EvState.mk.injEq, and_true,
      true_and]
    omega
  · simp only [previousPageWithProtection, hf, hp]
    rw [if_neg (by simp), if_pos (Or.inr (Or.inl (by
      show -(p.pageTurnThreshold - 1) ≤ -p.pageTurnThreshold + 1
      omega)))]
  · intro c h0
    simp only [previousPageWithProtection, hf, hp]
    rw [if_neg (by simp), if_neg (by simp [hv]; omega), if_pos trivial]
    simp only [Option.some.injEq, Prod.mk.injEq, EvState.mk.injEq, and_true,
      true_and]
    omega
  · intro c h0
    simp only [nextPageWithProtection, hf, hp]
    rw [if_neg (by simp), if_neg (by simp [hv]; omega), if_pos trivial]
    simp only [Option.some.injEq, Prod.mk.injEq, EvState.mk.injEq, and_true,
      true_and]
    omega

/-- Witness for `debounce_threshold`: with threshold `2`, the first forward
attempt is absorbed (counter `1`), the second flips, and a backward attempt
from counter `1` resets the magnitude to `1` in the new direction. -/
theorem debounce_threshold_witness :
    (1 : ℤ) ≤ 2 ∧
    nextPageWithProtection
        ⟨true, 2, true, false, 1/2, 40⟩
        ⟨false, false, false, true, 800, 600⟩
        ⟨0, true, false⟩ =
      some (false, ⟨1, true, false⟩, []) ∧
    nextPageWithProtection
        ⟨true, 2, true, false, 1/2, 40⟩
        ⟨false, false, false, true, 800, 600⟩
        ⟨1, true, false⟩ =
      some (true, ⟨0, true, false⟩, [VCall.nextPage]) ∧
    previousPageWithProtection
        ⟨true, 2, true, false, 1/2, 40⟩
        ⟨false, false, false, true, 800, 600⟩
        ⟨1, true, false⟩ =
      some (false, ⟨-1, true, false⟩, []) := by
  have h := debounce_threshold
    ⟨true, 2, true, false, 1/2, 40⟩
    ⟨false, false, false, true, 800, 600⟩
    ⟨0, true, false⟩ (by norm_num) rfl rfl rfl
  refine ⟨by norm_num, ?_, ?_, ?_⟩
  · exact h.1 0 le_rfl (by norm_num)
  · exact h.2.1
  · exact h.2.2.2.2.1 1 le_rfl

/-- Counterexample to C4 as stated: at `maxval = 13`, `cur = 0` (within
`[0, maxval]`) a warp occurs, but the result is exactly
`tolerance + extra = 5`, not strictly greater, so the result does not lie
strictly within `(tolerance+extra, maxval-tolerance-extra)`. -/
theorem valwarp_range_as_stated_false :
    valwarpTriggers 0 13 0 3 ∧ valwarp 0 13 0 3 2 = 5 ∧
    ¬ ((3 : ℚ) + 2 < valwarp 0 13 0 3 2) := by
  refine ⟨Or.inl (by norm_num), ?_, ?_⟩ <;> norm_num [valwarp]

/-- C4 (amended): with `min = 0`, `tolerance = 3`, `extra = 2` and a screen
size `maxval > 13`, `_valwarp` returns `cur` unchanged when neither border
test fires, and whenever a warp occurs the result lies strictly within
`(tolerance+extra, maxval-tolerance-extra)`; in particular the warped
position cannot re-trigger a warp on the next call. -/
theorem valwarp_range (cur maxval : ℚ) (h0 : 0 ≤ cur) (h1 : cur ≤ maxval)
    (h13 : 13 < maxval) :
    (valwarpTriggers cur maxval 0 3 →
      3 + 2 < valwarp cur maxval 0 3 2 ∧
      valwarp cur maxval 0 3 2 < maxval - 3 - 2 ∧
      ¬ valwarpTriggers (valwarp cur maxval 0 3 2) maxval 0 3) ∧
    (¬ valwarpTriggers cur maxval 0 3 → valwarp cur maxval 0 3 2 = cur) := by
  unfold valwarp valwarpTriggers
  by_cases hca : cur < 0 + 3
  · rw [if_pos hca]
    constructor
    · intro _
      refine ⟨by linarith, by linarith, ?_⟩
      push_neg
      exact ⟨by linarith, by linarith⟩
    · intro hn
      exact absurd (Or.inl hca) hn
  · rw [if_neg hca]
    by_cases hcb : maxval - cur < 3
    · rw [if_pos hcb]
      constructor
      · intro _
        refine ⟨by linarith, by linarith, ?_⟩
        push_neg
        exact ⟨by linarith, by linarith⟩
      · intro hn
        exact absurd (Or.inr hcb) hn
    · rw [if_neg hcb]
      refine ⟨fun h => ?_, fun _ => rfl⟩
      exact absurd h (by push_neg; exact ⟨le_of_not_lt hca, le_of_not_lt hcb⟩)

/-- Witness for `valwarp_range`: at `cur = 1`, `maxval = 100` a warp occurs
and the conclusion holds. -/
theorem valwarp_range_witness :
    (0 : ℚ) ≤ 1 ∧ (1 : ℚ) ≤ 100 ∧ (13 : ℚ) < 100 ∧
    3 + 2 < valwarp 1 100 0 3 2 ∧ valwarp 1 100 0 3 2 < 100 - 3 - 2 ∧
    ¬ valwarpTriggers (valwarp 1 100 0 3 2) 100 0 3 := by
  have h := (valwarp_range 1 100 (by norm_num) (by norm_num) (by norm_num)).1
    (Or.inl (by norm_num))
  exact ⟨by norm_num, by norm_num, by norm_num, h.1, h.2.1, h.2.2⟩

/-- C3: evaluation of the step computation at invert enabled,
`small_step = 40`, visible area 800x600, fraction 1/2.  The source line
`x_step_large, y_step_large = y_step_large, x_step_small` assigns the
current small step to `y_step_large`, so `y_step_large = 40`, which differs
from `int(visible_height * fraction) = 300` (and from
`int(visible_width * fraction) = 400`): the large step does not remain a
visible size times the fraction, contradicting the claim. -/
theorem invert_swap_bug_eval :
    computeSmartSteps ⟨true, 3, true, true, 1/2, 40⟩
      ⟨false, false, false, true, 800, 600⟩ (some 40) = ⟨40, 300, 40, 40⟩ ∧
    pyInt ((600 : ℚ) * (1/2)) = 300 ∧ pyInt ((800 : ℚ) * (1/2)) = 400 ∧
    ((40 : ℤ) ≠ 300 ∧ (40 : ℤ) ≠ 400) := by
  refine ⟨?_, by norm_num [pyInt], by norm_num [pyInt], by norm_num, by norm_num⟩
  norm_num [computeSmartSteps, computeStepsBase, pyInt]

/-- Counterexample to C2 as stated: with visible area 800x600, fraction 1/2,
single page, non-manga, non-inverted, no explicit small step, and both
scroll attempts refused, the engine issues `scroll(400, 0)` then
`scroll(0, 300)` then `next_page`; it never attempts the claimed
`scroll(0, 400)`. -/
theorem smart_scroll_down_scenario_as_stated_false :
    smartScrollDown ⟨true, 3, true, false, 1/2, 40⟩
        ⟨false, false, false, true, 800, 600⟩ ⟨0, false, false⟩
        none [false, false] =
      some (⟨0, false, false⟩,
        [VCall.scroll 400 0 none, VCall.scroll 0 300 none, VCall.nextPage]) ∧
    VCall.scroll 0 400 none ∉
      [VCall.scroll 400 0 none, VCall.scroll 0 300 none, VCall.nextPage] := by
  constructor
  · have hsteps : computeSmartSteps ⟨true, 3, true, false, 1/2, 40⟩
        ⟨false, false, false, true, 800, 600⟩ none = ⟨400, 400, 300, 300⟩ := by
      norm_num [computeSmartSteps, computeStepsBase, pyInt]
    rw [smartScrollDown, hsteps]
    simp [smartDownCore, pyAndOr, nextPageWithProtection, protTail]
  · decide

/-- C2 (amended): with visible area 800x600, smart scroll fraction 1/2,
single page displayed, manga mode off, invert off, 'flip with wheel' on and
protection inactive (as after a key dispatch), `_smart_scroll_down` with no
explicit small step first attempts `scroll(400, 0)`; if that is refused it
attempts `scroll(0, 300)`; if that is also refused it calls `next_page`
exactly once and issues no `scroll_to_fixed`. -/
theorem smart_scroll_down_scenario (p : Prefs) (w : WindowEnv) (s : EvState)
    (o : List Bool) :
    (smartScrollDown
        { p with flipWithWheel := true, smartScroll := true,
                 invertSmartScroll := false, smartScrollPercentage := 1/2 }
        { w with isMangaMode := false, displayedDouble := false,
                 visibleWidth := 800, visibleHeight := 600 }
        { s with scrollProtection := false } none (true :: o) =
      some ({ s with scrollProtection := false, lastScrollWasDirection1 := true },
        [VCall.scroll 400 0 none])) ∧
    (smartScrollDown
        { p with flipWithWheel := true, smartScroll := true,
                 invertSmartScroll := false, smartScrollPercentage := 1/2 }
        { w with isMangaMode := false, displayedDouble := false,
                 visibleWidth := 800, visibleHeight := 600 }
        { s with scrollProtection := false } none (false :: true :: o) =
      some ({ s with scrollProtection := false, lastScrollWasDirection1 := false },
        [VCall.scroll 400 0 none, VCall.scroll 0 300 none,
         VCall.scrollToFixed (some HorizTarget.startfirst) none])) ∧
    (smartScrollDown
        { p with flipWithWheel := true, smartScroll := true,
                 invertSmartScroll := false, smartScrollPercentage := 1/2 }
        { w with isMangaMode := false, displayedDouble := false,
                 visibleWidth := 800, visibleHeight := 600 }
        { s with scrollProtection := false } none (false :: false :: o) =
      some ({ s with extraScrollEvents := 0, scrollProtection := false,
                     lastScrollWasDirection1 := false },
        [VCall.scroll 400 0 none, VCall.scroll 0 300 none, VCall.nextPage])) := by
  have hsteps : computeSmartSteps
      { p with flipWithWheel := true, smartScroll := true,
               invertSmartScroll := false, smartScrollPercentage := 1/2 }
      { w with isMangaMode := false, displayedDouble := false,
               visibleWidth := 800, visibleHeight := 600 } none =
      ⟨400, 400, 300, 300⟩ := by
    norm_num [computeSmartSteps, computeStepsBase, pyInt]
  refine ⟨?_, ?_, ?_⟩ <;>
    rw [smartScrollDown, hsteps] <;>
    simp [smartDownCore, pyAndOr, nextPageWithProtection, protTail]

/-- Counterexample to C6 as stated: a left wheel tick in non-manga mode with
threshold 3, protection freshly set, counter 0 and vertical scroll room
available is routed through `_previous_page_with_protection`, which absorbs
it: the counter becomes `-1` and no page call at all is issued, so the tick
is not routed "directly to previous_page, bypassing the debounce". -/
theorem wheel_horizontal_routing_as_stated_false :
    scrollWheelEvent ⟨true, 3, true, false, 1/2, 40⟩
        ⟨false, false, false, true, 800, 600⟩ ScrollDir.left false
        ⟨0, false, false⟩ [] =
      some (⟨-1, true, false⟩, []) ∧
    VCall.previousPage ∉ ([] : List VCall) := by
  exact ⟨by decide, by decide⟩

/-- C6 (amended): every horizontal wheel tick not suppressed by the
middle-button mask first sets `_scroll_protection = True`; the tick in the
reading-order-advancing direction (right in non-manga, left in manga) then
calls `next_page` directly, bypassing the debounce, while a tick in the
opposite direction is routed through `_previous_page_with_protection` and
is therefore subject to the debounce. -/
theorem wheel_horizontal_routing (p : Prefs) (w : WindowEnv) (s : EvState)
    (o : List Bool) :
    (scrollWheelEvent p { w with isMangaMode := false } ScrollDir.right false
        s o = some ({ s with scrollProtection := true }, [VCall.nextPage])) ∧
    (scrollWheelEvent p { w with isMangaMode := true } ScrollDir.left false
        s o = some ({ s with scrollProtection := true }, [VCall.nextPage])) ∧
    (scrollWheelEvent p { w with isMangaMode := false } ScrollDir.left false
        s o =
      (previousPageWithProtection p { w with isMangaMode := false }
        { s with scrollProtection := true }).map (fun r => (r.2.1, r.2.2))) ∧
    (scrollWheelEvent p { w with isMangaMode := true } ScrollDir.right false
        s o =
      (previousPageWithProtection p { w with isMangaMode := true }
        { s with scrollProtection := true }).map (fun r => (r.2.1, r.2.2))) := by
  refine ⟨?_, ?_, ?_, ?_⟩ <;> simp [scrollWheelEvent]

/-- Both protectors modify only the counter: the protection flag of the
resulting state equals the incoming one. -/
theorem nextPageWithProtection_prot {p : Prefs} {w : WindowEnv} {s : EvState}
    {f : Bool} {s2 : EvState} {tr : List VCall}
    (h : nextPageWithProtection p w s = some (f, s2, tr)) :
    s2.scrollProtection = s.scrollProtection := by
  unfold nextPageWithProtection at h
  split at h
  · simp only [Option.some.injEq, Prod.mk.injEq] at h
    obtain ⟨-, hs, -⟩ := h
    rw [← hs]
  · split at h
    · simp only [Option.some.injEq, Prod.mk.injEq] at h
      obtain ⟨-, hs, -⟩ := h
      rw [← hs]
    · split at h
      · simp only [Option.some.injEq, Prod.mk.injEq] at h
        obtain ⟨-, hs, -⟩ := h
        rw [← hs]
      · exact Option.noConfusion h

/-- Backward analogue of `nextPageWithProtection_prot`. -/
theorem previousPageWithProtection_prot {p : Prefs} {w : WindowEnv}
    {s : EvState} {f : Bool} {s2 : EvState} {tr : List VCall}
    (h : previousPageWithProtection p w s = some (f, s2, tr)) :
    s2.scrollProtection = s.scrollProtection := by
  unfold previousPageWithProtection at h
  split at h
  · simp only [Option.some.injEq, Prod.mk.injEq] at h
    obtain ⟨-, hs, -⟩ := h
    rw [← hs]
  · split at h
    · simp only [Option.some.injEq, Prod.mk.injEq] at h
      obtain ⟨-, hs, -⟩ := h
      rw [← hs]
    · split at h
      · simp only [Option.some.injEq, Prod.mk.injEq] at h
        obtain ⟨-, hs, -⟩ := h
        rw [← hs]
      · exact Option.noConfusion h

/-- A successful `protTail` result comes from a successful protector call
with the same resulting state. -/
theorem protTail_some {tr : List VCall} {r : Option (Bool × EvState × List VCall)}
    {s2 : EvState} {tr2 : List VCall} (h : protTail tr r = some (s2, tr2)) :
    ∃ f tr3, r = some (f, s2, tr3) := by
  cases r with
  | none => exact Option.noConfusion h
  | some v =>
    obtain ⟨f, s3, tr3⟩ := v
    simp only [protTail, Option.some.injEq, Prod.mk.injEq] at h
    exact ⟨f, tr3, by rw [h.1]⟩

/-- `_smart_scroll_down` never modifies `_scroll_protection`. -/
theorem smartDownCore_prot {p : Prefs} {w : WindowEnv} {st : Steps}
    {s : EvState} {o : List Bool} {s2 : EvState} {tr : List VCall}
    (h : smartDownCore p w st s o = some (s2, tr)) :
    s2.scrollProtection = s.scrollProtection := by
  simp only [smartDownCore] at h
  repeat' split at h
  all_goals
    first
    | (obtain ⟨f3, tr3, h2⟩ := protTail_some h
       have h3 := nextPageWithProtection_prot h2
       exact h3)
    | (simp only [Option.some.injEq, Prod.mk.injEq] at h
       obtain ⟨hs, -⟩ := h
       subst hs
       rfl)

/-- `_smart_scroll_up` never modifies `_scroll_protection`. -/
theorem smartUpCore_prot {p : Prefs} {w : WindowEnv} {st : Steps}
    {s : EvState} {o : List Bool} {s2 : EvState} {tr : List VCall}
    (h : smartUpCore p w st s o = some (s2, tr)) :
    s2.scrollProtection = s.scrollProtection := by
  simp only [smartUpCore] at h
  repeat' split at h
  all_goals
    first
    | (obtain ⟨f3, tr3, h2⟩ := protTail_some h
       have h3 := previousPageWithProtection_prot h2
       exact h3)
    | (simp only [Option.some.injEq, Prod.mk.injEq] at h
       obtain ⟨hs, -⟩ := h
       subst hs
       rfl)

/-- Extract the underlying protector result from the `Option.map` used when
`scroll_wheel_event` discards the protector's boolean return value. -/
theorem map_proj_some {r : Option (Bool × EvState × List VCall)}
    {s2 : EvState} {tr : List VCall}
    (h : r.map (fun v => (v.2.1, v.2.2)) = some (s2, tr)) :
    ∃ f tr3, r = some (f, s2, tr3) := by
  cases r with
  | none => exact Option.noConfusion h
  | some v =>
    obtain ⟨f, s3, tr3⟩ := v
    simp only [Option.map_some', Option.some.injEq, Prod.mk.injEq] at h
    exact ⟨f, tr3, by rw [h.1]⟩

/-- `_scroll_with_flipping` sets `_scroll_protection = True` at its start,
and the flag survives to the resulting state. -/
theorem scrollWithFlipping_prot {p : Prefs} {w : WindowEnv} {x y : ℤ}
    {s : EvState} {o : List Bool} {f : Bool} {s2 : EvState} {tr : List VCall}
    (h : scrollWithFlipping p w x y s o = some (f, s2, tr)) :
    s2.scrollProtection = true := by
  simp only [scrollWithFlipping] at h
  split at h
  · simp only [Option.some.injEq, Prod.mk.injEq] at h
    obtain ⟨-, hs, -⟩ := h
    subst hs
    rfl
  · split at h
    · split at h
      · exact Option.noConfusion h
      · rename_i f2 s3 tr3 heq
        simp only [Option.some.injEq, Prod.mk.injEq] at h
        obtain ⟨-, hs, -⟩ := h
        subst hs
        have h3 := nextPageWithProtection_prot heq
        exact h3
    · split at h
      · exact Option.noConfusion h
      · rename_i f2 s3 tr3 heq
        simp only [Option.some.injEq, Prod.mk.injEq] at h
        obtain ⟨-, hs, -⟩ := h
        subst hs
        have h3 := previousPageWithProtection_prot heq
        exact h3

/-- Counterexample to C7 as stated: a key dispatch bound to
`_smart_scroll_down` (the smart-scroll key handler) resets
`_scroll_protection` to `False` and the smart-scroll attempt never sets it
back to `True`, so after this key-triggered scroll attempt the debounce
protection is inactive, contradicting the claim that every key-triggered
scroll attempt sets it at its start. -/
theorem protection_flag_lifecycle_as_stated_false :
    keyPressEvent
        (fun s1 => smartScrollDown ⟨true, 3, true, false, 1/2, 40⟩
          ⟨false, false, false, true, 800, 600⟩ s1 none [true])
        ⟨0, true, false⟩ =
      some (⟨0, false, true⟩, [VCall.scroll 400 0 none]) ∧
    (⟨0, false, true⟩ : EvState).scrollProtection = false := by
  constructor
  · have hsteps : computeSmartSteps ⟨true, 3, true, false, 1/2, 40⟩
        ⟨false, false, false, true, 800, 600⟩ none = ⟨400, 400, 300, 300⟩ := by
      norm_num [computeSmartSteps, computeStepsBase, pyInt]
    rw [keyPressEvent]
    show smartScrollDown ⟨true, 3, true, false, 1/2, 40⟩
      ⟨false, false, false, true, 800, 600⟩ ⟨0, false, false⟩ none [true] = _
    rw [smartScrollDown, hsteps]
    simp [smartDownCore]
  · rfl

/-- C7 (amended): wheel ticks not suppressed by the middle-button mask and
key-triggered plain scroll attempts (`_scroll_with_flipping`) set
`_scroll_protection = True` at their start; each key-press dispatch resets
it to `False` before executing the bound handler; but `_smart_scroll_down`
leaves the flag unchanged, so a key-triggered smart scroll runs and ends
with protection inactive. -/
theorem protection_flag_lifecycle (p : Prefs) (w : WindowEnv) (s : EvState)
    (o : List Bool) (dir : ScrollDir) (x y : ℤ) (ss : Option ℤ) :
    (∀ s2 tr, scrollWheelEvent p w dir false s o = some (s2, tr) →
      s2.scrollProtection = true) ∧
    (∀ f s2 tr, scrollWithFlipping p w x y s o = some (f, s2, tr) →
      s2.scrollProtection = true) ∧
    (∀ s2 tr, smartScrollDown p w s ss o = some (s2, tr) →
      s2.scrollProtection = s.scrollProtection) ∧
    (∀ s2 tr, smartScrollUp p w s ss o = some (s2, tr) →
      s2.scrollProtection = s.scrollProtection) ∧
    (∀ s2 tr, keyPressEvent (fun s1 => smartScrollDown p w s1 ss o) s =
        some (s2, tr) → s2.scrollProtection = false) := by
  refine ⟨?_, ?_, ?_, ?_, ?_⟩
  · intro s2 tr h
    cases dir
    case up =>
      simp only [scrollWheelEvent, if_neg (by simp : ¬ false = true)] at h
      split at h
      · simp only [smartScrollUp] at h
        have h3 := smartUpCore_prot h
        exact h3
      · obtain ⟨f3, tr3, hx⟩ := map_proj_some h
        exact scrollWithFlipping_prot hx
    case down =>
      simp only [scrollWheelEvent, if_neg (by simp : ¬ false = true)] at h
      split at h
      · simp only [smartScrollDown] at h
        have h3 := smartDownCore_prot h
        exact h3
      · obtain ⟨f3, tr3, hx⟩ := map_proj_some h
        exact scrollWithFlipping_prot hx
    case right =>
      simp only [scrollWheelEvent, if_neg (by simp : ¬ false = true)] at h
      split at h
      · simp only [Option.some.injEq, Prod.mk.injEq] at h
        obtain ⟨hs, -⟩ := h
        subst hs
        rfl
      · obtain ⟨f3, tr3, hx⟩ := map_proj_some h
        have h3 := previousPageWithProtection_prot hx
        exact h3
    case left =>
      simp only [scrollWheelEvent, if_neg (by simp : ¬ false = true)] at h
      split at h
      · obtain ⟨f3, tr3, hx⟩ := map_proj_some h
        have h3 := previousPageWithProtection_prot hx
        exact h3
      · simp only [Option.some.injEq, Prod.mk.injEq] at h
        obtain ⟨hs, -⟩ := h
        subst hs
        rfl
  · intro f s2 tr h
    exact scrollWithFlipping_prot h
  · intro s2 tr h
    simp only [smartScrollDown] at h
    exact smartDownCore_prot h
  · intro s2 tr h
    simp only [smartScrollUp] at h
    exact smartUpCore_prot h
  · intro s2 tr h
    simp only [keyPressEvent] at h
    simp only [smartScrollDown] at h
    have h3 := smartDownCore_prot h
    exact h3

/-- Witness for `protection_flag_lifecycle`: a concrete right wheel tick
ends with the protection flag set. -/
theorem protection_flag_lifecycle_witness :
    scrollWheelEvent ⟨true, 3, true, false, 1/2, 40⟩
        ⟨false, false, false, true, 800, 600⟩ ScrollDir.right false
        ⟨0, false, false⟩ [] = some (⟨0, true, false⟩, [VCall.nextPage]) ∧
    (⟨0, true, false⟩ : EvState).scrollProtection = true := by
  have h1 : scrollWheelEvent ⟨true, 3, true, false, 1/2, 40⟩
      ⟨false, false, false, true, 800, 600⟩ ScrollDir.right false
      ⟨0, false, false⟩ [] = some (⟨0, true, false⟩, [VCall.nextPage]) := by
    decide
  exact ⟨h1, (protection_flag_lifecycle ⟨true, 3, true, false, 1/2, 40⟩
    ⟨false, false, false, true, 800, 600⟩ ⟨0, false, false⟩ []
    ScrollDir.right 0 0 none).1 ⟨0, true, false⟩ [VCall.nextPage] h1⟩

/-- Negating both integer arguments of Python's `a and b or c` idiom negates
its value (zero-ness of `b` is preserved by negation). -/
theorem pyAndOr_neg (a : Bool) (b c : ℤ) :
    pyAndOr a (-b) (-c) = -(pyAndOr a b c) := by
  cases a <;> simp [pyAndOr, neg_eq_zero, apply_ite (fun z : ℤ => -z)]

/-- Evaluation of `negXRes` on a successful handler result. -/
theorem negXRes_some (s : EvState) (tr : List VCall) :
    negXRes (some (s, tr)) = some (s, tr.map negX) := rfl

/-- The protector issues no horizontal scroll, so mapping `negX` over a
`protTail` result only negates the already-issued trace prefix. -/
theorem protTail_negX_next (p : Prefs) (w : WindowEnv) (s : EvState)
    (tr : List VCall) :
    negXRes (protTail tr (nextPageWithProtection p w s)) =
      protTail (tr.map negX) (nextPageWithProtection p w s) := by
  unfold nextPageWithProtection
  split
  · simp [negXRes, protTail, negX]
  · split
    · simp [negXRes, protTail, negX]
    · split
      · simp [negXRes, protTail, negX]
      · simp [negXRes, protTail]

/-- Backward analogue of `protTail_negX_next`. -/
theorem protTail_negX_previous (p : Prefs) (w : WindowEnv) (s : EvState)
    (tr : List VCall) :
    negXRes (protTail tr (previousPageWithProtection p w s)) =
      protTail (tr.map negX) (previousPageWithProtection p w s) := by
  unfold previousPageWithProtection
  split
  · simp [negXRes, protTail, negX]
  · split
    · simp [negXRes, protTail, negX]
    · split
      · simp [negXRes, protTail, negX]
      · simp [negXRes, protTail]

/-- Negating the horizontal step values of `_smart_scroll_down` negates
exactly the horizontal components of the issued scroll calls. -/
theorem smartDownCore_negX (p : Prefs) (w : WindowEnv) (st : Steps)
    (s : EvState) (o : List Bool) :
    smartDownCore p w
      { st with xStepSmall := -st.xStepSmall, xStepLarge := -st.xStepLarge }
      s o = negXRes (smartDownCore p w st s o) := by
  simp only [smartDownCore]
  split_ifs <;>
    simp [negXRes_some, negX, protTail_negX_next, pyAndOr_neg]

/-- Negating the horizontal step values of `_smart_scroll_up` negates
exactly the horizontal components of the issued scroll calls. -/
theorem smartUpCore_negX (p : Prefs) (w : WindowEnv) (st : Steps)
    (s : EvState) (o : List Bool) :
    smartUpCore p w
      { st with xStepSmall := -st.xStepSmall, xStepLarge := -st.xStepLarge }
      s o = negXRes (smartUpCore p w st s o) := by
  simp only [smartUpCore]
  split_ifs <;>
    simp [negXRes_some, negX, protTail_negX_previous, pyAndOr_neg]

/-- The step computation does not read the manga flag. -/
theorem computeStepsBase_manga (p : Prefs) (w : WindowEnv) (b : Bool)
    (ss : Option ℤ) :
    computeStepsBase p { w with isMangaMode := b } ss =
      computeStepsBase p w ss := rfl

/-- The core of `_smart_scroll_down` (after step computation) does not read
the manga flag. -/
theorem smartDownCore_manga (p : Prefs) (w : WindowEnv) (b : Bool)
    (st : Steps) (s : EvState) (o : List Bool) :
    smartDownCore p { w with isMangaMode := b } st s o =
      smartDownCore p w st s o := rfl

/-- The core of `_smart_scroll_up` (after step computation) does not read
the manga flag. -/
theorem smartUpCore_manga (p : Prefs) (w : WindowEnv) (b : Bool)
    (st : Steps) (s : EvState) (o : List Bool) :
    smartUpCore p { w with isMangaMode := b } st s o =
      smartUpCore p w st s o := rfl

/-- Manga mode negates exactly the two horizontal step values computed for
a smart scroll and leaves the vertical ones unchanged. -/
theorem computeSmartSteps_manga (p : Prefs) (w : WindowEnv) (ss : Option ℤ) :
    computeSmartSteps p { w with isMangaMode := true } ss =
      { computeSmartSteps p { w with isMangaMode := false } ss with
          xStepSmall :=
            -(computeSmartSteps p { w with isMangaMode := false } ss).xStepSmall,
          xStepLarge :=
            -(computeSmartSteps p { w with isMangaMode := false } ss).xStepLarge } := by
  have hb : ∀ b : Bool, computeStepsBase p { w with isMangaMode := b } ss =
      computeStepsBase p w ss := fun b => rfl
  unfold computeSmartSteps
  simp [hb]

/-- C5: for identical handler state, oracle answers and preferences,
running the same smart-scroll call (down or up) in manga mode issues each
horizontal scroll attempt with the negated step and leaves vertical
attempts, fixed-edge snaps and page-flip calls unchanged; both the small
and large horizontal steps are negated by the step computation while the
vertical steps are unchanged. -/
theorem manga_mode_negation (p : Prefs) (w : WindowEnv) (s : EvState)
    (ss : Option ℤ) (o : List Bool) :
    (computeSmartSteps p { w with isMangaMode := true } ss =
      { computeSmartSteps p { w with isMangaMode := false } ss with
          xStepSmall :=
            -(computeSmartSteps p { w with isMangaMode := false } ss).xStepSmall,
          xStepLarge :=
            -(computeSmartSteps p { w with isMangaMode := false } ss).xStepLarge }) ∧
    (smartScrollDown p { w with isMangaMode := true } s ss o =
      negXRes (smartScrollDown p { w with isMangaMode := false } s ss o)) ∧
    (smartScrollUp p { w with isMangaMode := true } s ss o =
      negXRes (smartScrollUp p { w with isMangaMode := false } s ss o)) := by
  refine ⟨computeSmartSteps_manga p w ss, ?_, ?_⟩
  · rw [smartScrollDown, smartScrollDown, smartDownCore_manga,
      smartDownCore_manga, computeSmartSteps_manga]
    exact smartDownCore_negX p w _ s o
  · rw [smartScrollUp, smartScrollUp, smartUpCore_manga,
      smartUpCore_manga, computeSmartSteps_manga]
    exact smartUpCore_negX p w _ s o

/-- Counterexample to C10 as stated: with 'flip with wheel' disabled the
call is non-flipping while protection is active, yet it leaves the counter
at `0`, not at least `1`. -/
theorem protector_counter_bound_as_stated_false :
    nextPageWithProtection ⟨false, 3, true, false, 1/2, 40⟩
        ⟨false, false, false, true, 800, 600⟩ ⟨0, true, false⟩ =
      some (false, ⟨0, true, false⟩, []) ∧
    ¬ ((1 : ℤ) ≤ 0) := by
  exact ⟨by decide, by decide⟩
